import Mathlib

/-!
Shallow embedding of the geodesic engine of `src/app.py` (a Dash map tool
computing distance, azimuth and a great-circle path between two points).
Python floats are modelled by `PyFloat` (finite doubles as rationals plus
the IEEE specials), raw text inputs by their parse outcome (`RawInput`),
and the external pyproj `Geod` object by a `GeodModel` structure whose
inverse solver and geodesic point sampler are abstract parameters;
`GeodModel.npts` reproduces the pyproj `npts` list construction.
-/

/-- Value produced by Python `float(str(s).strip())` when it succeeds:
a finite double (modelled as a rational), a NaN, or a signed infinity. -/
inductive PyFloat where
  | num (q : ℚ)
  | nan
  | inf
  | ninf
deriving DecidableEq

/-- Classification of a raw UI input value by what `float(str(s).strip())`
does with it: parses to a finite double `q`, to a NaN, to plus or minus
infinity, or raises (empty strings, `None`, arbitrary malformed text). -/
inductive RawInput where
  | finiteNum (q : ℚ)
  | nanStr
  | infStr
  | ninfStr
  | unparseable
deriving DecidableEq

/-- Embedding of `parse_float` (src/app.py lines 11-16): the value of
`float(str(s).strip())` when the conversion succeeds, and `math.nan` when
it raises; despite its docstring it never returns `None` and never raises. -/
def parse_float : RawInput → PyFloat
  | .finiteNum q => .num q
  | .nanStr => .nan
  | .infStr => .inf
  | .ninfStr => .ninf
  | .unparseable => .nan

/-- IEEE comparison `a <= b` on Python floats: any comparison involving NaN
is false, minus infinity is below everything else, plus infinity above. -/
def PyFloat.le : PyFloat → PyFloat → Bool
  | .nan, _ => false
  | _, .nan => false
  | .ninf, _ => true
  | _, .inf => true
  | .inf, _ => false
  | _, .ninf => false
  | .num a, .num b => decide (a ≤ b)

/-- Numeric value of a finite Python float (with junk value `0` on the
specials; the call sites sit behind the `valid_lat_lon` guard, which rules
the specials out). -/
def PyFloat.val : PyFloat → ℚ
  | .num q => q
  | _ => 0

/-- Embedding of `valid_lat_lon` (src/app.py lines 19-23): a `None`
component fails, otherwise both chained IEEE range checks
`-90.0 <= lat <= 90.0` and `-180.0 <= lon <= 180.0` must hold. -/
def valid_lat_lon : Option PyFloat → Option PyFloat → Bool
  | none, _ => false
  | _, none => false
  | some lat, some lon =>
      (PyFloat.le (.num (-90)) lat && PyFloat.le lat (.num 90)) &&
      (PyFloat.le (.num (-180)) lon && PyFloat.le lon (.num 180))

/-- Embedding of `make_deg_positive` (src/app.py line 139):
`(deg + 360) % 360` with the Python float `%`, whose result takes the sign
of the divisor, i.e. floor-mod. -/
def make_deg_positive (deg : ℚ) : ℚ :=
  (deg + 360) - 360 * ⌊(deg + 360) / 360⌋

/-- Model of the external pyproj `Geod(ellps="WGS84")` object.  `inv` is
the inverse geodesic solve returning (forward azimuth, back azimuth,
distance in meters) for `(lon1, lat1, lon2, lat2)`; `interp i m` is the
point reached after `i` of `m` equal subdivisions of the geodesic from
point 1 to point 2, as a `(lon, lat)` pair, constrained to hit the exact
endpoints at `i = 0` and `i = m`. -/
structure GeodModel where
  inv : ℚ → ℚ → ℚ → ℚ → ℚ × ℚ × ℚ
  interp : ℚ → ℚ → ℚ → ℚ → ℕ → ℕ → ℚ × ℚ
  interp_zero : ∀ lon1 lat1 lon2 lat2 m, 0 < m →
    interp lon1 lat1 lon2 lat2 0 m = (lon1, lat1)
  interp_last : ∀ lon1 lat1 lon2 lat2 m, 0 < m →
    interp lon1 lat1 lon2 lat2 m m = (lon2, lat2)

/-- Model of pyproj `Geod.npts(lon1, lat1, lon2, lat2, npts, radians,
initial_idx, terminus_idx)`: the internal routine places
`npts + initial_idx + terminus_idx` evenly spaced samples on the geodesic
(indices `0 .. total - 1`, spacing `dist / (total - 1)`) and returns those
with index from `initial_idx` up to `total - 1 - terminus_idx`, so the
returned list has `npts` entries, and it contains the exact endpoints when
the two extra indices are `0` (as in the call in `update_map`). -/
def GeodModel.npts (g : GeodModel) (lon1 lat1 lon2 lat2 : ℚ) (n : ℕ)
    (initial_idx terminus_idx : ℕ) : List (ℚ × ℚ) :=
  (List.range n).map fun i =>
    g.interp lon1 lat1 lon2 lat2 (i + initial_idx) (n + initial_idx + terminus_idx - 1)

/-- Result-box text of the callback, kept structured: either the fixed
prompt message or the distance (km) and azimuth (degrees) pair that the
Python code formats into the result string. -/
inductive Summary where
  | prompt
  | distAz (dist_km az : ℚ)
deriving DecidableEq

/-- The five outputs of the `update_map` callback: the two marker layers
(positions as `[lat, lon]` pairs), the polyline layer, the result-box text
and the map bounds. -/
structure MapOutput where
  start_marker : Option (ℚ × ℚ)
  dest_marker : Option (ℚ × ℚ)
  line : Option (List (ℚ × ℚ))
  result : Summary
  bounds : Option ((ℚ × ℚ) × (ℚ × ℚ))
deriving DecidableEq

/-- Embedding of the `update_map` callback (src/app.py lines 159-213),
parameterised by the geodesic model `g`.  Marker construction, the
great-circle point list from `npts` with both extra indices `0`, the
antimeridian branch that rewrites the two marker longitudes and every path
longitude with `make_deg_positive`, the result text and the bounds follow
the Python line for line (the Python branch mutates the marker positions
and the point list in place; the embedding rebuilds the same values). -/
def update_map (g : GeodModel)
    (start_lat_s start_lon_s dest_lat_s dest_lon_s : RawInput) : MapOutput :=
  let s_lat := parse_float start_lat_s
  let s_lon := parse_float start_lon_s
  let d_lat := parse_float dest_lat_s
  let d_lon := parse_float dest_lon_s
  let start_ok := valid_lat_lon (some s_lat) (some s_lon)
  let dest_ok := valid_lat_lon (some d_lat) (some d_lon)
  let start_marker : Option (ℚ × ℚ) :=
    if start_ok then some (s_lat.val, s_lon.val) else none
  let dest_marker : Option (ℚ × ℚ) :=
    if dest_ok then some (d_lat.val, d_lon.val) else none
  if start_ok && dest_ok then
    let fwd_az_deg := (g.inv s_lon.val s_lat.val d_lon.val d_lat.val).1
    let dist_m := (g.inv s_lon.val s_lat.val d_lon.val d_lat.val).2.2
    let az := make_deg_positive fwd_az_deg
    let dist_km := dist_m / 1000
    let gc_lonlat := g.npts s_lon.val s_lat.val d_lon.val d_lat.val 1024 0 0
    let gc_points := gc_lonlat.map fun p => (p.2, p.1)
    if ¬ (-180 ≤ d_lon.val - s_lon.val ∧ d_lon.val - s_lon.val ≤ 180) then
      { start_marker := some (s_lat.val, make_deg_positive s_lon.val),
        dest_marker := some (d_lat.val, make_deg_positive d_lon.val),
        line := some (gc_points.map fun p => (p.1, make_deg_positive p.2)),
        result := .distAz dist_km az,
        bounds := some ((min s_lat.val d_lat.val, min s_lon.val d_lon.val),
                        (max s_lat.val d_lat.val, max s_lon.val d_lon.val)) }
    else
      { start_marker := start_marker,
        dest_marker := dest_marker,
        line := some gc_points,
        result := .distAz dist_km az,
        bounds := some ((min s_lat.val d_lat.val, min s_lon.val d_lon.val),
                        (max s_lat.val d_lat.val, max s_lon.val d_lon.val)) }
  else
    { start_marker := start_marker,
      dest_marker := dest_marker,
      line := none,
      result := .prompt,
      bounds := none }

/-- Linear interpolation on each coordinate separately; it hits the exact
endpoints, which is all the claims ask of a geodesic sampler, and it makes
the witnesses computable. -/
def linInterp (lon1 lat1 lon2 lat2 : ℚ) (i m : ℕ) : ℚ × ℚ :=
  if m = 0 then (lon1, lat1)
  else (lon1 + (lon2 - lon1) * i / m, lat1 + (lat2 - lat1) * i / m)

/-- Concrete instance of `GeodModel` used for witnesses: linear
interpolation between the endpoints and a fixed inverse solve. -/
def linGeod : GeodModel where
  inv := fun _ _ _ _ => (45, 225, 5000000)
  interp := linInterp
  interp_zero := by
    intro lon1 lat1 lon2 lat2 m hm
    simp [linInterp]
  interp_last := by
    intro lon1 lat1 lon2 lat2 m hm
    have h0 : m ≠ 0 := Nat.pos_iff_ne_zero.mp hm
    have hq : (m : ℚ) ≠ 0 := Nat.cast_ne_zero.mpr h0
    rw [linInterp, if_neg h0, Prod.mk.injEq]
    constructor
    · field_simp
    · field_simp

lemma valid_lat_lon_of_ranges {qa qo : ℚ}
    (h1 : -90 ≤ qa) (h2 : qa ≤ 90) (h3 : -180 ≤ qo) (h4 : qo ≤ 180) :
    valid_lat_lon (some (.num qa)) (some (.num qo)) = true := by
  simp [valid_lat_lon, PyFloat.le, h1, h2, h3, h4]

lemma make_deg_positive_nonneg (deg : ℚ) : 0 ≤ make_deg_positive deg := by
  rw [make_deg_positive]
  have h : (⌊(deg + 360) / 360⌋ : ℚ) ≤ (deg + 360) / 360 := Int.floor_le _
  have h2 : (360 : ℚ) * (⌊(deg + 360) / 360⌋ : ℚ) ≤ 360 * ((deg + 360) / 360) :=
    mul_le_mul_of_nonneg_left h (by norm_num)
  have h3 : (360 : ℚ) * ((deg + 360) / 360) = deg + 360 := by ring
  linarith

lemma make_deg_positive_lt (deg : ℚ) : make_deg_positive deg < 360 := by
  rw [make_deg_positive]
  have h : (deg + 360) / 360 < (⌊(deg + 360) / 360⌋ : ℚ) + 1 := Int.lt_floor_add_one _
  have h2 : (360 : ℚ) * ((deg + 360) / 360) < 360 * ((⌊(deg + 360) / 360⌋ : ℚ) + 1) :=
    mul_lt_mul_of_pos_left h (by norm_num)
  have h3 : (360 : ℚ) * ((deg + 360) / 360) = deg + 360 := by ring
  linarith

lemma update_map_invalid (g : GeodModel) (a b c d : RawInput)
    (h : ¬ (valid_lat_lon (some (parse_float a)) (some (parse_float b)) = true ∧
            valid_lat_lon (some (parse_float c)) (some (parse_float d)) = true)) :
    update_map g a b c d =
      { start_marker :=
          if valid_lat_lon (some (parse_float a)) (some (parse_float b)) then
            some ((parse_float a).val, (parse_float b).val)
          else none,
        dest_marker :=
          if valid_lat_lon (some (parse_float c)) (some (parse_float d)) then
            some ((parse_float c).val, (parse_float d).val)
          else none,
        line := none,
        result := .prompt,
        bounds := none } := by
  have hb : (valid_lat_lon (some (parse_float a)) (some (parse_float b)) &&
             valid_lat_lon (some (parse_float c)) (some (parse_float d))) = false := by
    cases hx : valid_lat_lon (some (parse_float a)) (some (parse_float b)) <;>
      cases hy : valid_lat_lon (some (parse_float c)) (some (parse_float d)) <;>
        simp_all
  simp only [update_map, hb, Bool.false_eq_true, if_false]

lemma update_map_valid (g : GeodModel) (a b c d : RawInput) (slat slon dlat dlon : ℚ)
    (ha : parse_float a = .num slat) (hb : parse_float b = .num slon)
    (hc : parse_float c = .num dlat) (hd : parse_float d = .num dlon)
    (h1 : -90 ≤ slat) (h2 : slat ≤ 90) (h3 : -180 ≤ slon) (h4 : slon ≤ 180)
    (h5 : -90 ≤ dlat) (h6 : dlat ≤ 90) (h7 : -180 ≤ dlon) (h8 : dlon ≤ 180) :
    update_map g a b c d =
      if ¬ (-180 ≤ dlon - slon ∧ dlon - slon ≤ 180) then
        { start_marker := some (slat, make_deg_positive slon),
          dest_marker := some (dlat, make_deg_positive dlon),
          line := some (((g.npts slon slat dlon dlat 1024 0 0).map fun p => (p.2, p.1)).map
                          fun p => (p.1, make_deg_positive p.2)),
          result := .distAz ((g.inv slon slat dlon dlat).2.2 / 1000)
                            (make_deg_positive (g.inv slon slat dlon dlat).1),
          bounds := some ((min slat dlat, min slon dlon), (max slat dlat, max slon dlon)) }
      else
        { start_marker := some (slat, slon),
          dest_marker := some (dlat, dlon),
          line := some ((g.npts slon slat dlon dlat 1024 0 0).map fun p => (p.2, p.1)),
          result := .distAz ((g.inv slon slat dlon dlat).2.2 / 1000)
                            (make_deg_positive (g.inv slon slat dlon dlat).1),
          bounds := some ((min slat dlat, min slon dlon), (max slat dlat, max slon dlon)) } := by
  have hv1 : valid_lat_lon (some (PyFloat.num slat)) (some (PyFloat.num slon)) = true :=
    valid_lat_lon_of_ranges h1 h2 h3 h4
  have hv2 : valid_lat_lon (some (PyFloat.num dlat)) (some (PyFloat.num dlon)) = true :=
    valid_lat_lon_of_ranges h5 h6 h7 h8
  simp only [update_map, ha, hb, hc, hd, hv1, hv2, Bool.and_self, PyFloat.val,
    eq_self_iff_true, if_true]

lemma npts_length (g : GeodModel) (lon1 lat1 lon2 lat2 : ℚ) :
    (g.npts lon1 lat1 lon2 lat2 1024 0 0).length = 1024 := by
  simp [GeodModel.npts]

lemma npts_getElem (g : GeodModel) (lon1 lat1 lon2 lat2 : ℚ) {i : ℕ} (hi : i < 1024) :
    (g.npts lon1 lat1 lon2 lat2 1024 0 0)[i]? =
      some (g.interp lon1 lat1 lon2 lat2 i 1023) := by
  simp [GeodModel.npts, List.getElem?_range hi]

lemma npts_first (g : GeodModel) (lon1 lat1 lon2 lat2 : ℚ) :
    (g.npts lon1 lat1 lon2 lat2 1024 0 0)[0]? = some (lon1, lat1) := by
  rw [npts_getElem g lon1 lat1 lon2 lat2 (by norm_num)]
  rw [g.interp_zero lon1 lat1 lon2 lat2 1023 (by norm_num)]

lemma npts_last (g : GeodModel) (lon1 lat1 lon2 lat2 : ℚ) :
    (g.npts lon1 lat1 lon2 lat2 1024 0 0)[1023]? = some (lon2, lat2) := by
  rw [npts_getElem g lon1 lat1 lon2 lat2 (by norm_num)]
  rw [g.interp_last lon1 lat1 lon2 lat2 1023 (by norm_num)]

/-- C2: a raw point is treated as valid if and only if both of its
components parse to finite numbers with latitude in [-90, 90] and
longitude in [-180, 180]; any unparseable, non-finite or out-of-range
component makes the whole point invalid. -/
theorem C2_point_valid_iff (rawLat rawLon : RawInput) :
    valid_lat_lon (some (parse_float rawLat)) (some (parse_float rawLon)) = true ↔
      ∃ la lo : ℚ, rawLat = .finiteNum la ∧ rawLon = .finiteNum lo ∧
        -90 ≤ la ∧ la ≤ 90 ∧ -180 ≤ lo ∧ lo ≤ 180 := by
  cases rawLat <;> cases rawLon <;>
    simp [parse_float, valid_lat_lon, PyFloat.le, and_assoc]

/-- C9: `parse_float` is a total function on every class of raw input; on
an unparseable input (`None`, empty or malformed text) it returns NaN and
not `None` (contrary to its docstring), and NaN fails the range
comparisons of `valid_lat_lon` in either component, so an unparseable
component always yields an invalid point rather than an exception. -/
theorem C9_parse_float_total_nan :
    parse_float .unparseable = .nan ∧
    parse_float .nanStr = .nan ∧
    (∀ lon : Option PyFloat, valid_lat_lon (some .nan) lon = false) ∧
    (∀ lat : Option PyFloat, valid_lat_lon lat (some .nan) = false) := by
  refine ⟨rfl, rfl, ?_, ?_⟩
  · intro lon
    cases lon <;> simp [valid_lat_lon, PyFloat.le]
  · intro lat
    cases lat <;> simp [valid_lat_lon, PyFloat.le]

/-- C8: the orchestration is a pure deterministic function of its four raw
inputs: two invocations with equal inputs produce equal outputs. -/
theorem C8_deterministic (g : GeodModel) (a b c d a2 b2 c2 d2 : RawInput)
    (h1 : a = a2) (h2 : b = b2) (h3 : c = c2) (h4 : d = d2) :
    update_map g a b c d = update_map g a2 b2 c2 d2 := by
  subst h1
  subst h2
  subst h3
  subst h4
  rfl

/-- Witness for C8 at concrete inputs. -/
theorem C8_witness :
    (RawInput.finiteNum 1 = RawInput.finiteNum 1 ∧
     RawInput.finiteNum 2 = RawInput.finiteNum 2 ∧
     RawInput.finiteNum 3 = RawInput.finiteNum 3 ∧
     RawInput.finiteNum 4 = RawInput.finiteNum 4) ∧
    update_map linGeod (.finiteNum 1) (.finiteNum 2) (.finiteNum 3) (.finiteNum 4) =
      update_map linGeod (.finiteNum 1) (.finiteNum 2) (.finiteNum 3) (.finiteNum 4) :=
  ⟨⟨rfl, rfl, rfl, rfl⟩,
   C8_deterministic linGeod (.finiteNum 1) (.finiteNum 2) (.finiteNum 3) (.finiteNum 4)
     (.finiteNum 1) (.finiteNum 2) (.finiteNum 3) (.finiteNum 4) rfl rfl rfl rfl⟩

/-- C3: when at least one of the two points is invalid the output has no
path polyline and no display bounds, the summary is the fixed prompt, the
marker of each invalid point is absent, and a valid point still gets its
marker. -/
theorem C3_insufficient_input (g : GeodModel) (a b c d : RawInput)
    (h : valid_lat_lon (some (parse_float a)) (some (parse_float b)) = false ∨
         valid_lat_lon (some (parse_float c)) (some (parse_float d)) = false) :
    (update_map g a b c d).line = none ∧
    (update_map g a b c d).bounds = none ∧
    (update_map g a b c d).result = .prompt ∧
    (update_map g a b c d).start_marker =
      (if valid_lat_lon (some (parse_float a)) (some (parse_float b)) then
        some ((parse_float a).val, (parse_float b).val) else none) ∧
    (update_map g a b c d).dest_marker =
      (if valid_lat_lon (some (parse_float c)) (some (parse_float d)) then
        some ((parse_float c).val, (parse_float d).val) else none) := by
  have h2 : ¬ (valid_lat_lon (some (parse_float a)) (some (parse_float b)) = true ∧
               valid_lat_lon (some (parse_float c)) (some (parse_float d)) = true) := by
    rcases h with h | h <;> simp [h]
  rw [update_map_invalid g a b c d h2]
  exact ⟨rfl, rfl, rfl, rfl, rfl⟩

/-- Witness for C3: an unparseable start latitude with a valid destination. -/
theorem C3_witness :
    (valid_lat_lon (some (parse_float .unparseable))
        (some (parse_float (RawInput.finiteNum 10))) = false ∨
     valid_lat_lon (some (parse_float (RawInput.finiteNum 20)))
        (some (parse_float (RawInput.finiteNum 30))) = false) ∧
    ((update_map linGeod .unparseable (.finiteNum 10) (.finiteNum 20)
        (.finiteNum 30)).line = none ∧
     (update_map linGeod .unparseable (.finiteNum 10) (.finiteNum 20)
        (.finiteNum 30)).bounds = none ∧
     (update_map linGeod .unparseable (.finiteNum 10) (.finiteNum 20)
        (.finiteNum 30)).result = .prompt ∧
     (update_map linGeod .unparseable (.finiteNum 10) (.finiteNum 20)
        (.finiteNum 30)).start_marker =
       (if valid_lat_lon (some (parse_float .unparseable))
            (some (parse_float (RawInput.finiteNum 10))) then
         some ((parse_float .unparseable).val,
               (parse_float (RawInput.finiteNum 10)).val) else none) ∧
     (update_map linGeod .unparseable (.finiteNum 10) (.finiteNum 20)
        (.finiteNum 30)).dest_marker =
       (if valid_lat_lon (some (parse_float (RawInput.finiteNum 20)))
            (some (parse_float (RawInput.finiteNum 30))) then
         some ((parse_float (RawInput.finiteNum 20)).val,
               (parse_float (RawInput.finiteNum 30)).val) else none)) :=
  ⟨Or.inl rfl,
   C3_insufficient_input linGeod .unparseable (.finiteNum 10) (.finiteNum 20)
     (.finiteNum 30) (Or.inl rfl)⟩

/-- C7: for valid points the bounding box is exactly the min/max of the
original unnormalized input coordinates on each axis, so min ≤ max holds on
both axes and the box contains both raw input coordinates. -/
theorem C7_bounds (g : GeodModel) (a b c d : RawInput) (slat slon dlat dlon : ℚ)
    (ha : parse_float a = .num slat) (hb : parse_float b = .num slon)
    (hc : parse_float c = .num dlat) (hd : parse_float d = .num dlon)
    (h1 : -90 ≤ slat) (h2 : slat ≤ 90) (h3 : -180 ≤ slon) (h4 : slon ≤ 180)
    (h5 : -90 ≤ dlat) (h6 : dlat ≤ 90) (h7 : -180 ≤ dlon) (h8 : dlon ≤ 180) :
    (update_map g a b c d).bounds =
      some ((min slat dlat, min slon dlon), (max slat dlat, max slon dlon)) ∧
    min slat dlat ≤ max slat dlat ∧ min slon dlon ≤ max slon dlon ∧
    min slat dlat ≤ slat ∧ slat ≤ max slat dlat ∧
    min slon dlon ≤ slon ∧ slon ≤ max slon dlon ∧
    min slat dlat ≤ dlat ∧ dlat ≤ max slat dlat ∧
    min slon dlon ≤ dlon ∧ dlon ≤ max slon dlon := by
  constructor
  · rw [update_map_valid g a b c d slat slon dlat dlon ha hb hc hd h1 h2 h3 h4 h5 h6 h7 h8]
    split <;> rfl
  · exact ⟨min_le_max, min_le_max, min_le_left _ _, le_max_left _ _,
      min_le_left _ _, le_max_left _ _, min_le_right _ _, le_max_right _ _,
      min_le_right _ _, le_max_right _ _⟩

/-- Witness for C7 at concrete inputs. -/
theorem C7_witness :
    (parse_float (RawInput.finiteNum 1) = .num 1 ∧
     parse_float (RawInput.finiteNum 2) = .num 2 ∧
     parse_float (RawInput.finiteNum 3) = .num 3 ∧
     parse_float (RawInput.finiteNum 4) = .num 4 ∧
     -90 ≤ (1 : ℚ) ∧ (1 : ℚ) ≤ 90 ∧ -180 ≤ (2 : ℚ) ∧ (2 : ℚ) ≤ 180 ∧
     -90 ≤ (3 : ℚ) ∧ (3 : ℚ) ≤ 90 ∧ -180 ≤ (4 : ℚ) ∧ (4 : ℚ) ≤ 180) ∧
    ((update_map linGeod (.finiteNum 1) (.finiteNum 2) (.finiteNum 3)
        (.finiteNum 4)).bounds =
      some ((min 1 3, min 2 4), (max 1 3, max 2 4)) ∧
     min (1 : ℚ) 3 ≤ max 1 3 ∧ min (2 : ℚ) 4 ≤ max 2 4 ∧
     min (1 : ℚ) 3 ≤ 1 ∧ (1 : ℚ) ≤ max 1 3 ∧
     min (2 : ℚ) 4 ≤ 2 ∧ (2 : ℚ) ≤ max 2 4 ∧
     min (1 : ℚ) 3 ≤ 3 ∧ (3 : ℚ) ≤ max 1 3 ∧
     min (2 : ℚ) 4 ≤ 4 ∧ (4 : ℚ) ≤ max 2 4) :=
  ⟨⟨rfl, rfl, rfl, rfl, by norm_num, by norm_num, by norm_num, by norm_num,
    by norm_num, by norm_num, by norm_num, by norm_num⟩,
   C7_bounds linGeod (.finiteNum 1) (.finiteNum 2) (.finiteNum 3) (.finiteNum 4)
     1 2 3 4 rfl rfl rfl rfl (by norm_num) (by norm_num) (by norm_num) (by norm_num)
     (by norm_num) (by norm_num) (by norm_num) (by norm_num)⟩

/-- C6: the reported initial bearing is the raw forward azimuth of the
inverse solve mapped through ((azimuth + 360) mod 360), and for every
rational azimuth that mapping agrees with the floor-mod formula and lands
in the half-open interval [0, 360). -/
theorem C6_bearing_normalized (g : GeodModel) (a b c d : RawInput)
    (slat slon dlat dlon : ℚ)
    (ha : parse_float a = .num slat) (hb : parse_float b = .num slon)
    (hc : parse_float c = .num dlat) (hd : parse_float d = .num dlon)
    (h1 : -90 ≤ slat) (h2 : slat ≤ 90) (h3 : -180 ≤ slon) (h4 : slon ≤ 180)
    (h5 : -90 ≤ dlat) (h6 : dlat ≤ 90) (h7 : -180 ≤ dlon) (h8 : dlon ≤ 180) :
    (update_map g a b c d).result =
      .distAz ((g.inv slon slat dlon dlat).2.2 / 1000)
              (make_deg_positive (g.inv slon slat dlon dlat).1) ∧
    (∀ az : ℚ, make_deg_positive az = az + 360 - 360 * ⌊(az + 360) / 360⌋ ∧
      0 ≤ make_deg_positive az ∧ make_deg_positive az < 360) := by
  constructor
  · rw [update_map_valid g a b c d slat slon dlat dlon ha hb hc hd h1 h2 h3 h4 h5 h6 h7 h8]
    split <;> rfl
  · intro az
    exact ⟨rfl, make_deg_positive_nonneg az, make_deg_positive_lt az⟩

/-- Witness for C6 at concrete inputs. -/
theorem C6_witness :
    (parse_float (RawInput.finiteNum 5) = .num 5 ∧
     parse_float (RawInput.finiteNum 6) = .num 6 ∧
     parse_float (RawInput.finiteNum 7) = .num 7 ∧
     parse_float (RawInput.finiteNum 8) = .num 8 ∧
     -90 ≤ (5 : ℚ) ∧ (5 : ℚ) ≤ 90 ∧ -180 ≤ (6 : ℚ) ∧ (6 : ℚ) ≤ 180 ∧
     -90 ≤ (7 : ℚ) ∧ (7 : ℚ) ≤ 90 ∧ -180 ≤ (8 : ℚ) ∧ (8 : ℚ) ≤ 180) ∧
    ((update_map linGeod (.finiteNum 5) (.finiteNum 6) (.finiteNum 7)
        (.finiteNum 8)).result =
      .distAz ((linGeod.inv 6 5 8 7).2.2 / 1000)
              (make_deg_positive (linGeod.inv 6 5 8 7).1) ∧
     (∀ az : ℚ, make_deg_positive az = az + 360 - 360 * ⌊(az + 360) / 360⌋ ∧
       0 ≤ make_deg_positive az ∧ make_deg_positive az < 360)) :=
  ⟨⟨rfl, rfl, rfl, rfl, by norm_num, by norm_num, by norm_num, by norm_num,
    by norm_num, by norm_num, by norm_num, by norm_num⟩,
   C6_bearing_normalized linGeod (.finiteNum 5) (.finiteNum 6) (.finiteNum 7)
     (.finiteNum 8) 5 6 7 8 rfl rfl rfl rfl (by norm_num) (by norm_num)
     (by norm_num) (by norm_num) (by norm_num) (by norm_num) (by norm_num)
     (by norm_num)⟩

/-- C4: the longitude normalization is applied exactly when the signed
delta destLon - startLon falls outside [-180, 180]; when it is not applied
the path longitudes are returned exactly as solved, and for the crossing
case with start longitude 170 and destination longitude -170 the
normalized destination longitude equals 190. -/
theorem C4_antimeridian_iff (g : GeodModel) (a b c d : RawInput)
    (slat slon dlat dlon : ℚ)
    (ha : parse_float a = .num slat) (hb : parse_float b = .num slon)
    (hc : parse_float c = .num dlat) (hd : parse_float d = .num dlon)
    (h1 : -90 ≤ slat) (h2 : slat ≤ 90) (h3 : -180 ≤ slon) (h4 : slon ≤ 180)
    (h5 : -90 ≤ dlat) (h6 : dlat ≤ 90) (h7 : -180 ≤ dlon) (h8 : dlon ≤ 180) :
    ((-180 ≤ dlon - slon ∧ dlon - slon ≤ 180) →
      (update_map g a b c d).line =
        some ((g.npts slon slat dlon dlat 1024 0 0).map fun p => (p.2, p.1))) ∧
    ((¬ (-180 ≤ dlon - slon ∧ dlon - slon ≤ 180)) →
      (update_map g a b c d).line =
        some (((g.npts slon slat dlon dlat 1024 0 0).map fun p => (p.2, p.1)).map
                fun p => (p.1, make_deg_positive p.2))) ∧
    (update_map g (.finiteNum 0) (.finiteNum 170) (.finiteNum 0)
      (.finiteNum (-170))).dest_marker = some (0, 190) := by
  refine ⟨?_, ?_, ?_⟩
  · intro hin
    rw [update_map_valid g a b c d slat slon dlat dlon ha hb hc hd h1 h2 h3 h4 h5 h6 h7 h8]
    rw [if_neg (not_not_intro hin)]
  · intro hout
    rw [update_map_valid g a b c d slat slon dlat dlon ha hb hc hd h1 h2 h3 h4 h5 h6 h7 h8]
    rw [if_pos hout]
  · rw [update_map_valid g (.finiteNum 0) (.finiteNum 170) (.finiteNum 0)
      (.finiteNum (-170)) 0 170 0 (-170) rfl rfl rfl rfl (by norm_num) (by norm_num)
      (by norm_num) (by norm_num) (by norm_num) (by norm_num) (by norm_num) (by norm_num)]
    rw [if_pos (by norm_num : ¬ (-180 ≤ (-170 : ℚ) - 170 ∧ (-170 : ℚ) - 170 ≤ 180))]
    have h190 : make_deg_positive (-170) = 190 := by with_unfolding_all rfl
    rw [h190]

/-- Witness for C4 using the antimeridian-crossing pair of longitudes. -/
theorem C4_witness :
    (parse_float (RawInput.finiteNum 0) = .num 0 ∧
     parse_float (RawInput.finiteNum 170) = .num 170 ∧
     parse_float (RawInput.finiteNum (-170)) = .num (-170) ∧
     -90 ≤ (0 : ℚ) ∧ (0 : ℚ) ≤ 90 ∧ -180 ≤ (170 : ℚ) ∧ (170 : ℚ) ≤ 180 ∧
     -180 ≤ (-170 : ℚ) ∧ (-170 : ℚ) ≤ 180) ∧
    (((-180 ≤ (-170 : ℚ) - 170 ∧ (-170 : ℚ) - 170 ≤ 180) →
      (update_map linGeod (.finiteNum 0) (.finiteNum 170) (.finiteNum 0)
        (.finiteNum (-170))).line =
        some ((linGeod.npts 170 0 (-170) 0 1024 0 0).map fun p => (p.2, p.1))) ∧
    ((¬ (-180 ≤ (-170 : ℚ) - 170 ∧ (-170 : ℚ) - 170 ≤ 180)) →
      (update_map linGeod (.finiteNum 0) (.finiteNum 170) (.finiteNum 0)
        (.finiteNum (-170))).line =
        some (((linGeod.npts 170 0 (-170) 0 1024 0 0).map fun p => (p.2, p.1)).map
                fun p => (p.1, make_deg_positive p.2))) ∧
    (update_map linGeod (.finiteNum 0) (.finiteNum 170) (.finiteNum 0)
      (.finiteNum (-170))).dest_marker = some (0, 190)) :=
  ⟨⟨rfl, rfl, rfl, by norm_num, by norm_num, by norm_num, by norm_num,
    by norm_num, by norm_num⟩,
   C4_antimeridian_iff linGeod (.finiteNum 0) (.finiteNum 170) (.finiteNum 0)
     (.finiteNum (-170)) 0 170 0 (-170) rfl rfl rfl rfl (by norm_num) (by norm_num)
     (by norm_num) (by norm_num) (by norm_num) (by norm_num) (by norm_num) (by norm_num)⟩

/-- C5: whenever the antimeridian normalization is applied it is applied to
the start marker, the destination marker and every path sample together,
and when it is not applied none of them is shifted. -/
theorem C5_consistent_normalization (g : GeodModel) (a b c d : RawInput)
    (slat slon dlat dlon : ℚ)
    (ha : parse_float a = .num slat) (hb : parse_float b = .num slon)
    (hc : parse_float c = .num dlat) (hd : parse_float d = .num dlon)
    (h1 : -90 ≤ slat) (h2 : slat ≤ 90) (h3 : -180 ≤ slon) (h4 : slon ≤ 180)
    (h5 : -90 ≤ dlat) (h6 : dlat ≤ 90) (h7 : -180 ≤ dlon) (h8 : dlon ≤ 180) :
    ((¬ (-180 ≤ dlon - slon ∧ dlon - slon ≤ 180)) →
      (update_map g a b c d).start_marker = some (slat, make_deg_positive slon) ∧
      (update_map g a b c d).dest_marker = some (dlat, make_deg_positive dlon) ∧
      (update_map g a b c d).line =
        some (((g.npts slon slat dlon dlat 1024 0 0).map fun p => (p.2, p.1)).map
                fun p => (p.1, make_deg_positive p.2))) ∧
    ((-180 ≤ dlon - slon ∧ dlon - slon ≤ 180) →
      (update_map g a b c d).start_marker = some (slat, slon) ∧
      (update_map g a b c d).dest_marker = some (dlat, dlon) ∧
      (update_map g a b c d).line =
        some ((g.npts slon slat dlon dlat 1024 0 0).map fun p => (p.2, p.1))) := by
  rw [update_map_valid g a b c d slat slon dlat dlon ha hb hc hd h1 h2 h3 h4 h5 h6 h7 h8]
  constructor
  · intro hout
    rw [if_pos hout]
    exact ⟨rfl, rfl, rfl⟩
  · intro hin
    rw [if_neg (not_not_intro hin)]
    exact ⟨rfl, rfl, rfl⟩

/-- Witness for C5 using the antimeridian-crossing pair of longitudes. -/
theorem C5_witness :
    (parse_float (RawInput.finiteNum 0) = .num 0 ∧
     parse_float (RawInput.finiteNum 170) = .num 170 ∧
     parse_float (RawInput.finiteNum (-170)) = .num (-170) ∧
     -90 ≤ (0 : ℚ) ∧ (0 : ℚ) ≤ 90 ∧ -180 ≤ (170 : ℚ) ∧ (170 : ℚ) ≤ 180 ∧
     -180 ≤ (-170 : ℚ) ∧ (-170 : ℚ) ≤ 180) ∧
    (((¬ (-180 ≤ (-170 : ℚ) - 170 ∧ (-170 : ℚ) - 170 ≤ 180)) →
      (update_map linGeod (.finiteNum 0) (.finiteNum 170) (.finiteNum 0)
        (.finiteNum (-170))).start_marker = some (0, make_deg_positive 170) ∧
      (update_map linGeod (.finiteNum 0) (.finiteNum 170) (.finiteNum 0)
        (.finiteNum (-170))).dest_marker = some (0, make_deg_positive (-170)) ∧
      (update_map linGeod (.finiteNum 0) (.finiteNum 170) (.finiteNum 0)
        (.finiteNum (-170))).line =
        some (((linGeod.npts 170 0 (-170) 0 1024 0 0).map fun p => (p.2, p.1)).map
                fun p => (p.1, make_deg_positive p.2))) ∧
    ((-180 ≤ (-170 : ℚ) - 170 ∧ (-170 : ℚ) - 170 ≤ 180) →
      (update_map linGeod (.finiteNum 0) (.finiteNum 170) (.finiteNum 0)
        (.finiteNum (-170))).start_marker = some (0, 170) ∧
      (update_map linGeod (.finiteNum 0) (.finiteNum 170) (.finiteNum 0)
        (.finiteNum (-170))).dest_marker = some (0, -170) ∧
      (update_map linGeod (.finiteNum 0) (.finiteNum 170) (.finiteNum 0)
        (.finiteNum (-170))).line =
        some ((linGeod.npts 170 0 (-170) 0 1024 0 0).map fun p => (p.2, p.1)))) :=
  ⟨⟨rfl, rfl, rfl, by norm_num, by norm_num, by norm_num, by norm_num,
    by norm_num, by norm_num⟩,
   C5_consistent_normalization linGeod (.finiteNum 0) (.finiteNum 170) (.finiteNum 0)
     (.finiteNum (-170)) 0 170 0 (-170) rfl rfl rfl rfl (by norm_num) (by norm_num)
     (by norm_num) (by norm_num) (by norm_num) (by norm_num) (by norm_num) (by norm_num)⟩

/-- C10: whenever the antimeridian-crossing branch is taken, the start
marker longitude, the destination marker longitude and the longitude of
every path sample all lie in the half-open interval [0, 360). -/
theorem C10_displayed_lon_range (g : GeodModel) (a b c d : RawInput)
    (slat slon dlat dlon : ℚ)
    (ha : parse_float a = .num slat) (hb : parse_float b = .num slon)
    (hc : parse_float c = .num dlat) (hd : parse_float d = .num dlon)
    (h1 : -90 ≤ slat) (h2 : slat ≤ 90) (h3 : -180 ≤ slon) (h4 : slon ≤ 180)
    (h5 : -90 ≤ dlat) (h6 : dlat ≤ 90) (h7 : -180 ≤ dlon) (h8 : dlon ≤ 180)
    (hcross : ¬ (-180 ≤ dlon - slon ∧ dlon - slon ≤ 180)) :
    (∃ p : ℚ × ℚ, (update_map g a b c d).start_marker = some p ∧
      0 ≤ p.2 ∧ p.2 < 360) ∧
    (∃ p : ℚ × ℚ, (update_map g a b c d).dest_marker = some p ∧
      0 ≤ p.2 ∧ p.2 < 360) ∧
    (∃ pts : List (ℚ × ℚ), (update_map g a b c d).line = some pts ∧
      ∀ p ∈ pts, 0 ≤ p.2 ∧ p.2 < 360) := by
  rw [update_map_valid g a b c d slat slon dlat dlon ha hb hc hd h1 h2 h3 h4 h5 h6 h7 h8]
  rw [if_pos hcross]
  refine ⟨⟨(slat, make_deg_positive slon), rfl,
      make_deg_positive_nonneg _, make_deg_positive_lt _⟩,
    ⟨(dlat, make_deg_positive dlon), rfl,
      make_deg_positive_nonneg _, make_deg_positive_lt _⟩,
    ⟨_, rfl, ?_⟩⟩
  intro p hp
  rcases List.mem_map.mp hp with ⟨q, hq, hpq⟩
  rw [← hpq]
  exact ⟨make_deg_positive_nonneg _, make_deg_positive_lt _⟩

/-- Witness for C10 using the antimeridian-crossing pair of longitudes. -/
theorem C10_witness :
    (parse_float (RawInput.finiteNum 0) = .num 0 ∧
     parse_float (RawInput.finiteNum 170) = .num 170 ∧
     parse_float (RawInput.finiteNum (-170)) = .num (-170) ∧
     -90 ≤ (0 : ℚ) ∧ (0 : ℚ) ≤ 90 ∧ -180 ≤ (170 : ℚ) ∧ (170 : ℚ) ≤ 180 ∧
     -180 ≤ (-170 : ℚ) ∧ (-170 : ℚ) ≤ 180 ∧
     ¬ (-180 ≤ (-170 : ℚ) - 170 ∧ (-170 : ℚ) - 170 ≤ 180)) ∧
    ((∃ p : ℚ × ℚ, (update_map linGeod (.finiteNum 0) (.finiteNum 170)
        (.finiteNum 0) (.finiteNum (-170))).start_marker = some p ∧
      0 ≤ p.2 ∧ p.2 < 360) ∧
    (∃ p : ℚ × ℚ, (update_map linGeod (.finiteNum 0) (.finiteNum 170)
        (.finiteNum 0) (.finiteNum (-170))).dest_marker = some p ∧
      0 ≤ p.2 ∧ p.2 < 360) ∧
    (∃ pts : List (ℚ × ℚ), (update_map linGeod (.finiteNum 0) (.finiteNum 170)
        (.finiteNum 0) (.finiteNum (-170))).line = some pts ∧
      ∀ p ∈ pts, 0 ≤ p.2 ∧ p.2 < 360)) :=
  ⟨⟨rfl, rfl, rfl, by norm_num, by norm_num, by norm_num, by norm_num,
    by norm_num, by norm_num, by norm_num⟩,
   C10_displayed_lon_range linGeod (.finiteNum 0) (.finiteNum 170) (.finiteNum 0)
     (.finiteNum (-170)) 0 170 0 (-170) rfl rfl rfl rfl (by norm_num) (by norm_num)
     (by norm_num) (by norm_num) (by norm_num) (by norm_num) (by norm_num)
     (by norm_num) (by norm_num)⟩

/-- C1 is false on the code at a concrete valid input pair: the rendered
polyline has 1024 points, not 1026, because `npts` is called with both
extra indices `0`, which makes the two endpoints part of the 1024 returned
samples, and `update_map` never prepends or appends the endpoints itself. -/
theorem C1_counterexample :
    (update_map linGeod (.finiteNum 10) (.finiteNum 20) (.finiteNum 30)
      (.finiteNum 40)).line.map List.length = some 1024 ∧
    ¬ ((update_map linGeod (.finiteNum 10) (.finiteNum 20) (.finiteNum 30)
      (.finiteNum 40)).line.map List.length = some 1026) := by
  have hline : (update_map linGeod (.finiteNum 10) (.finiteNum 20) (.finiteNum 30)
      (.finiteNum 40)).line.map List.length = some 1024 := by
    rw [update_map_valid linGeod (.finiteNum 10) (.finiteNum 20) (.finiteNum 30)
      (.finiteNum 40) 10 20 30 40 rfl rfl rfl rfl (by norm_num) (by norm_num)
      (by norm_num) (by norm_num) (by norm_num) (by norm_num) (by norm_num) (by norm_num)]
    rw [if_neg (not_not_intro (by norm_num :
      -180 ≤ (40 : ℚ) - 20 ∧ (40 : ℚ) - 20 ≤ 180))]
    simp [npts_length]
  refine ⟨hline, ?_⟩
  intro hcontra
  rw [hline] at hcontra
  exact absurd (Option.some.injEq 1024 1026 ▸ hcontra) (by omega)

/-- C1 (amended): for valid start and destination the rendered polyline
consists of exactly 1024 points: the start point, then 1022 evenly spaced
intermediate geodesic samples, then the destination point; its first and
last entries coincide with the start and destination marker positions. -/
theorem C1_path_structure (g : GeodModel) (a b c d : RawInput)
    (slat slon dlat dlon : ℚ)
    (ha : parse_float a = .num slat) (hb : parse_float b = .num slon)
    (hc : parse_float c = .num dlat) (hd : parse_float d = .num dlon)
    (h1 : -90 ≤ slat) (h2 : slat ≤ 90) (h3 : -180 ≤ slon) (h4 : slon ≤ 180)
    (h5 : -90 ≤ dlat) (h6 : dlat ≤ 90) (h7 : -180 ≤ dlon) (h8 : dlon ≤ 180) :
    ∃ pts : List (ℚ × ℚ),
      (update_map g a b c d).line = some pts ∧
      pts.length = 1024 ∧
      pts[0]? = (update_map g a b c d).start_marker ∧
      pts[1023]? = (update_map g a b c d).dest_marker := by
  rw [update_map_valid g a b c d slat slon dlat dlon ha hb hc hd h1 h2 h3 h4 h5 h6 h7 h8]
  by_cases hcross : ¬ (-180 ≤ dlon - slon ∧ dlon - slon ≤ 180)
  · rw [if_pos hcross]
    refine ⟨_, rfl, ?_, ?_, ?_⟩
    · simp [npts_length]
    · simp [npts_first]
    · simp [npts_last]
  · rw [if_neg hcross]
    refine ⟨_, rfl, ?_, ?_, ?_⟩
    · simp [npts_length]
    · simp [npts_first]
    · simp [npts_last]

/-- Witness for the amended C1 at concrete inputs. -/
theorem C1_witness :
    (parse_float (RawInput.finiteNum 10) = .num 10 ∧
     parse_float (RawInput.finiteNum 20) = .num 20 ∧
     parse_float (RawInput.finiteNum 30) = .num 30 ∧
     parse_float (RawInput.finiteNum 40) = .num 40 ∧
     -90 ≤ (10 : ℚ) ∧ (10 : ℚ) ≤ 90 ∧ -180 ≤ (20 : ℚ) ∧ (20 : ℚ) ≤ 180 ∧
     -90 ≤ (30 : ℚ) ∧ (30 : ℚ) ≤ 90 ∧ -180 ≤ (40 : ℚ) ∧ (40 : ℚ) ≤ 180) ∧
    (∃ pts : List (ℚ × ℚ),
      (update_map linGeod (.finiteNum 10) (.finiteNum 20) (.finiteNum 30)
        (.finiteNum 40)).line = some pts ∧
      pts.length = 1024 ∧
      pts[0]? = (update_map linGeod (.finiteNum 10) (.finiteNum 20) (.finiteNum 30)
        (.finiteNum 40)).start_marker ∧
      pts[1023]? = (update_map linGeod (.finiteNum 10) (.finiteNum 20) (.finiteNum 30)
        (.finiteNum 40)).dest_marker) :=
  ⟨⟨rfl, rfl, rfl, rfl, by norm_num, by norm_num, by norm_num, by norm_num,
    by norm_num, by norm_num, by norm_num, by norm_num⟩,
   C1_path_structure linGeod (.finiteNum 10) (.finiteNum 20) (.finiteNum 30)
     (.finiteNum 40) 10 20 30 40 rfl rfl rfl rfl (by norm_num) (by norm_num)
     (by norm_num) (by norm_num) (by norm_num) (by norm_num) (by norm_num)
     (by norm_num)⟩
